import Mathlib

/-
Shallow embedding of src/deeppavlov/models/ner/network_refactored.py.

The Python module defines class NerNetwork(TFModel).  The embedding below
models, at the value level, the parts of that class the verified properties
speak about: the constructor's sequence of feature builders and its two
fatal call sites (tf.concat without an axis on line 69, the 3-name unpack of
a 2-tuple on lines 84-85 and 190), the two recurrent-encoder builders
(lines 129-152), the loss assembly of _build_train_predict (lines 170-190),
the word-embedding dropout noise shape (line 106), the per-example Viterbi
decode loop of predict_no_crf (lines 192-207) together with the attribute
names that method reads versus the ones the class ever assigns, and the
stubbed train_on_batch (lines 214-215).

Real-valued tensors are modelled over the rationals; tensors appear either
as nested lists of values or, where only shapes and widths matter, as their
widths.  External collaborators from deeppavlov.core.layers.tf_layers and
tf.contrib.crf are not in the sources; where a behaviour of theirs is
needed it is modelled from the spec and marked as such.
-/

/-- Python exception classes relevant to the embedded code.  Raising an
exception is modelled by `Except.error`. -/
inductive PyErr
  | typeError (msg : String)
  | valueError (msg : String)
  | attributeError (name : String)
  | runtimeError (msg : String)
  | warning (msg : String)
  | nameError (name : String)
deriving Repr, DecidableEq

/-- The placeholders individual builders create (src lines 102-127). -/
inductive Placeholder
  | tokenIndices
  | maskPh
  | charIndices
  | capitalizationPh
  | posPh
deriving Repr, DecidableEq

/-- Input-feature tensors appended to `self._input_features`, identified by
their builder and last-axis width. -/
inductive Feature
  | tokenEmb (dim : Nat)
  | capitalizationFeat (dim : Nat)
  | posFeat (dim : Nat)
deriving Repr, DecidableEq

/-- Last-axis width of a feature tensor. -/
def Feature.width : Feature → Nat
  | .tokenEmb d => d
  | .capitalizationFeat d => d
  | .posFeat d => d

/-- The two lists the feature builders grow: `self._xs_placeholders` and
`self._input_features` (src lines 45 and 47). -/
structure BuildState where
  xs_placeholders : List Placeholder
  input_features : List Feature
deriving Repr, DecidableEq

/-- Constructor arguments of NerNetwork.__init__ (src lines 23-43) that the
verified properties depend on, plus `gpu_available`, the environment fact
queried by check_gpu_existance.  `token_emb_dim` stands for the embedding
width carried by `token_emb_mat`. -/
structure Config where
  n_tags : Nat
  token_emb_dim : Nat
  char_emb_dim : Option Nat := none
  capitalization_dim : Option Nat := none
  pos_features_dim : Option Nat := none
  net_type : String := "rnn"
  cell_type : String := "lstm"
  use_cudnn_rnn : Bool := false
  two_dense_on_top : Bool := false
  n_hidden_list : List Nat := [128]
  use_crf : Bool := false
  embeddings_dropout : Bool := false
  intra_layer_dropout : Bool := false
  l2_reg : ℚ := 0
  gpu_available : Bool := false
deriving Repr

/-- src lines 102-108, _build_word_embeddings: appends the token-indices
placeholder to `_xs_placeholders` and the (possibly dropped-out) embedding
tensor to `_input_features`. -/
def build_word_embeddings (token_emb_dim : Nat) (st : BuildState) : BuildState :=
  ⟨st.xs_placeholders ++ [Placeholder.tokenIndices],
   st.input_features ++ [Feature.tokenEmb token_emb_dim]⟩

/-- src lines 110-113, _build_mask: appends the mask placeholder to
`_xs_placeholders` only (the mask is not an input feature). -/
def build_mask (st : BuildState) : BuildState :=
  ⟨st.xs_placeholders ++ [Placeholder.maskPh], st.input_features⟩

/-- src lines 115-117, _build_char_embeddings: creates the Char_ph
placeholder as a local and calls character_embedding_network() with no
arguments; it appends nothing to `_xs_placeholders` and nothing to
`_input_features`, so the builder state is returned unchanged. -/
def build_char_embeddings (st : BuildState) : BuildState :=
  let _character_indices_ph := Placeholder.charIndices
  st

/-- src lines 119-122, _build_capitalization: appends the capitalization
placeholder to both lists. -/
def build_capitalization (capitalization_dim : Nat) (st : BuildState) : BuildState :=
  ⟨st.xs_placeholders ++ [Placeholder.capitalizationPh],
   st.input_features ++ [Feature.capitalizationFeat capitalization_dim]⟩

/-- src lines 124-127, _build_pos: appends the POS placeholder to both
lists. -/
def build_pos (pos_features_dim : Nat) (st : BuildState) : BuildState :=
  ⟨st.xs_placeholders ++ [Placeholder.posPh],
   st.input_features ++ [Feature.posFeat pos_features_dim]⟩

/-- src lines 44-67: the feature-building prefix of NerNetwork.__init__, in
source order: word embeddings, mask, then the optional char, capitalization
and POS builders, each gated on its dimension argument being non-None. -/
def build_input_features (cfg : Config) : BuildState :=
  let st := build_word_embeddings cfg.token_emb_dim ⟨[], []⟩
  let st := build_mask st
  let st := if cfg.char_emb_dim.isSome then build_char_embeddings st else st
  let st := match cfg.capitalization_dim with
    | some d => build_capitalization d st
    | none => st
  let st := match cfg.pos_features_dim with
    | some d => build_pos d st
    | none => st
  st

/-- tf.concat(values, axis): `axis` is a required positional argument of the
library function, so the call `tf.concat(self._input_features)` on src line
69 — which passes only the values list — raises a TypeError before looking
at the values.  When an axis is supplied, concatenation along the last axis
sums the feature widths. -/
def tf_concat (values : List Feature) (axis : Option Int) : Except PyErr Nat :=
  match axis with
  | none => Except.error (PyErr.typeError "concat missing 1 required positional argument axis")
  | some _ => Except.ok ((values.map Feature.width).sum)

/-- Modelled from the spec: cudnn_bi_lstm, cudnn_bi_gru and bi_rnn (from
deeppavlov.core.layers.tf_layers, not present in the sources) each run a
forward and a backward recurrent cell of size n_hidden; the builders then
concatenate the pair along the last axis (src lines 141 and 149), so one
bidirectional layer outputs last-axis width 2 * n_hidden. -/
def bi_output_width (n_hidden : Nat) : Nat := 2 * n_hidden

/-- Python str.lower(), applied by the source to cell_type. -/
def py_lower (s : String) : String := String.mk (s.data.map Char.toLower)

/-- src lines 129-144, _build_cudnn_rnn, tracking last-axis widths.  The
GPU check is first (lines 130-131).  The `return units` statement on line
144 is indented inside the `for` loop over n_hidden_list, so the function
returns after processing the first entry; with an empty list the loop body
never runs and the function falls through, returning None (modelled as
`Except.ok none`). -/
def build_cudnn_rnn_width (gpu_available : Bool) (cell_type : String)
    (n_hidden_list : List Nat) : Except PyErr (Option Nat) :=
  if gpu_available = false then
    Except.error (PyErr.runtimeError "Usage of cuDNN RNN layers require GPU along with cuDNN library")
  else
    match n_hidden_list with
    | [] => Except.ok none
    | n_hidden :: _rest =>
      if py_lower cell_type = "lstm" then
        Except.ok (some (bi_output_width n_hidden))
      else if py_lower cell_type = "gru" then
        Except.ok (some (bi_output_width n_hidden))
      else
        Except.error (PyErr.runtimeError "Wrong cell type! Only gru and lstm!")

/-- src lines 146-152, _build_rnn, tracking last-axis widths: the loop body
reassigns `units` for every entry of n_hidden_list, and the `return` on
line 152 is outside the loop, so every layer is processed in order. -/
def build_rnn_width (in_width : Nat) : List Nat → Nat
  | [] => in_width
  | n_hidden :: rest => build_rnn_width (bi_output_width n_hidden) rest

/-- The graph nodes named by the tuple `_build_train_predict` returns. -/
inductive TfNode
  | trainOpNode
  | lossNode
deriving Repr, DecidableEq

/-- src line 190: `return train_op, loss,` — a 2-tuple (the trailing comma
adds no element), modelled as the list of returned graph nodes. -/
def build_train_predict_return : List TfNode := [TfNode.trainOpNode, TfNode.lossNode]

/-- Python unpacking of a tuple into three assignment targets, as on src
lines 84-85: succeeds only on a 3-tuple, otherwise raises ValueError. -/
def tuple_unpack3 {α : Type} (t : List α) : Except PyErr (α × α × α) :=
  match t with
  | [a, b, c] => Except.ok (a, b, c)
  | t =>
    if t.length < 3 then
      Except.error (PyErr.valueError "not enough values to unpack")
    else
      Except.error (PyErr.valueError "too many values to unpack")

/-- The attributes a fully executed constructor would store (src lines
84-95): the unpacked train_op, loss and predict method, and the session. -/
structure NerInstance where
  train_op : TfNode
  loss : TfNode
  predict_m : TfNode
  sess_stored : Bool
deriving Repr, DecidableEq

/-- src lines 23-95, NerNetwork.__init__ at the level of this embedding.
After the feature builders run, line 69 calls tf.concat on the feature list
without an axis argument.  The remainder mirrors the source: the
net_type/use_cudnn_rnn/l2_reg branching of lines 73-81 (an unrecognized
net_type leaves the local `units` unbound, surfacing as a name error at its
first use on line 82; the cnn width is modelled from the spec as the last
entry of n_hidden_list), then the unpacking of _build_train_predict's
2-tuple into three targets on lines 84-85, then session storage. -/
def NerNetwork_init (cfg : Config) : Except PyErr NerInstance := do
  let st := build_input_features cfg
  let features_width ← tf_concat st.input_features none
  let _units ←
    (if cfg.net_type = "rnn" then
      if cfg.use_cudnn_rnn then
        if 0 < cfg.l2_reg then
          Except.error (PyErr.warning "cuDNN RNN are not l2 regularizable")
        else do
          let u ← build_cudnn_rnn_width cfg.gpu_available cfg.cell_type cfg.n_hidden_list
          match u with
          | some w => Except.ok w
          | none => Except.error (PyErr.typeError "NoneType units from empty n_hidden_list")
      else
        Except.ok (build_rnn_width features_width cfg.n_hidden_list)
    else if cfg.net_type = "cnn" then
      Except.ok (cfg.n_hidden_list.getLastD 0)
    else
      Except.error (PyErr.nameError "units"))
  let unpacked ← tuple_unpack3 build_train_predict_return
  Except.ok ⟨unpacked.1, unpacked.2.1, unpacked.2.2, true⟩

/-- src line 106: the dropout on the word-embedding tensor `emb` of shape
[batch, L, emb_dim] passes noise_shape=[tf.shape(emb)[0], 1,
tf.shape(emb)[2]]. -/
def word_dropout_noise_shape (emb_shape : List Nat) : List Nat :=
  [emb_shape.getD 0 0, 1, emb_shape.getD 2 0]

/-- Broadcasting rule for a dropout noise shape: an axis of extent 1 reuses
the single mask entry at index 0 of that axis. -/
def broadcast_index (dim : Nat) (i : Nat) : Nat :=
  if dim = 1 then 0 else i

/-- Whether position (i, j, c) of the embedding tensor is kept by a dropout
mask drawn with the given noise shape: the random mask `noise` is sampled
at the broadcast indices. -/
def keep_decision (noise_shape : List Nat) (noise : Nat → Nat → Nat → Bool)
    (i j c : Nat) : Bool :=
  noise (broadcast_index (noise_shape.getD 0 0) i)
        (broadcast_index (noise_shape.getD 1 0) j)
        (broadcast_index (noise_shape.getD 2 0) c)

/-- tf.one_hot(label, n_tags) for a single gold label (src line 176). -/
def one_hot (n_tags : Nat) (label : Nat) : List ℚ :=
  (List.range n_tags).map (fun j => if j = label then (1 : ℚ) else 0)

/-- tf.reduce_mean over a vector: sum divided by element count. -/
def reduce_mean_1 (xs : List ℚ) : ℚ :=
  xs.sum / (xs.length : ℚ)

/-- tf.reduce_mean over a matrix reduces over all axes: the mean of the
flattened elements. -/
def reduce_mean_2 (t : List (List ℚ)) : ℚ :=
  reduce_mean_1 t.flatten

/-- Elementwise product of two [batch, L] tensors (src line 178,
`loss_tensor * mask`). -/
def mask_mul (t mask : List (List ℚ)) : List (List ℚ) :=
  List.zipWith (fun row mrow => List.zipWith (fun a b => a * b) row mrow) t mask

/-- src lines 176-177 as a tensor of per-position values: entry (i, j) is
the external softmax cross-entropy primitive `xent` applied to the one-hot
expansion of gold label y[i][j] (labels argument) and the logit vector
logits[i][j]. -/
def xent_tensor (xent : List ℚ → List ℚ → ℚ) (n_tags : Nat)
    (logits : List (List (List ℚ))) (y : List (List Nat)) : List (List ℚ) :=
  List.zipWith (fun lrow yrow =>
      List.zipWith (fun lvec label => xent (one_hot n_tags label) lvec) lrow yrow)
    logits y

/-- src lines 171-180: the base loss.  In CRF mode it is the mean of the
per-example negative log-likelihoods produced by the external
crf_log_likelihood (supplied here as `crf_neg_log_lik`); otherwise it is
the mean of the per-position cross-entropies multiplied elementwise by the
mask. -/
def base_loss (use_crf : Bool) (crf_neg_log_lik : List ℚ)
    (xent : List ℚ → List ℚ → ℚ) (logits : List (List (List ℚ)))
    (y : List (List Nat)) (mask : List (List ℚ)) (n_tags : Nat) : ℚ :=
  if use_crf then
    reduce_mean_1 crf_neg_log_lik
  else
    reduce_mean_2 (mask_mul (xent_tensor xent n_tags logits y) mask)

/-- src lines 182-186: the optimized total loss adds l2_reg times the mean
of the collected regularization terms when l2_reg > 0 and is the base loss
otherwise. -/
def total_loss (loss : ℚ) (l2_reg : ℚ) (reg_losses : List ℚ) : ℚ :=
  if 0 < l2_reg then loss + l2_reg * reduce_mean_1 reg_losses else loss

/-- src lines 170-190, _build_train_predict at the value level: the pair of
the base loss (src line 180) and the total loss handed to the optimizer
(src lines 183-186). -/
def build_train_predict_losses (use_crf : Bool) (crf_neg_log_lik : List ℚ)
    (xent : List ℚ → List ℚ → ℚ) (logits : List (List (List ℚ)))
    (y : List (List Nat)) (mask : List (List ℚ)) (n_tags : Nat)
    (l2_reg : ℚ) (reg_losses : List ℚ) : ℚ × ℚ :=
  (base_loss use_crf crf_neg_log_lik xent logits y mask n_tags,
   total_loss (base_loss use_crf crf_neg_log_lik xent logits y mask n_tags) l2_reg reg_losses)

/-- First index attaining the maximum of a list (np.argmax: first maximal
index; 0 on an empty list). -/
def arg_max_idx (xs : List ℚ) : Nat :=
  (xs.enum.foldl (fun best p => if best.2 < p.2 then p else best) (0, xs.headD 0)).1

/-- Maximum of a list (np.max; the head default is never exposed because
callers pass nonempty lists). -/
def max_val (xs : List ℚ) : ℚ :=
  xs.foldl max (xs.headD 0)

/-- One forward step of Viterbi: from the previous trellis row and the
current score row, compute the new trellis row and the backpointer row.
Candidate i for target tag j scores prev[i] + transitions[i][j]. -/
def viterbi_step (trans : List (List ℚ)) (prev : List ℚ) (score_row : List ℚ) :
    List ℚ × List Nat :=
  let cand := fun j => prev.enum.map (fun p => p.2 + ((trans.getD p.1 []).getD j 0))
  ((List.range score_row.length).map (fun j => score_row.getD j 0 + max_val (cand j)),
   (List.range score_row.length).map (fun j => arg_max_idx (cand j)))

/-- Forward pass of Viterbi over the remaining score rows, accumulating the
backpointer rows. -/
def viterbi_forward (trans : List (List ℚ)) (trellis : List ℚ) :
    List (List ℚ) → List ℚ × List (List Nat)
  | [] => (trellis, [])
  | row :: rest =>
    let step := viterbi_step trans trellis row
    let next := viterbi_forward trans step.1 rest
    (next.1, step.2 :: next.2)

/-- Backward pass of Viterbi: walk the backpointer rows, given in reverse
order, from the chosen last tag; produces the path in forward order. -/
def viterbi_backtrace : List (List Nat) → Nat → List Nat
  | [], cur => [cur]
  | bp :: earlier, cur => viterbi_backtrace earlier (bp.getD cur 0) ++ [cur]

/-- Modelled from the spec: tf.contrib.crf.viterbi_decode (an external
collaborator), the dynamic-programming best-path search over per-position
tag scores and a transition matrix.  On an empty score sequence the library
indexes score[0] and fails, modelled as `none`. -/
def viterbi_decode (score : List (List ℚ)) (trans : List (List ℚ)) :
    Option (List Nat × ℚ) :=
  match score with
  | [] => none
  | s0 :: rest =>
    let fwd := viterbi_forward trans s0 rest
    some (viterbi_backtrace fwd.2.reverse (arg_max_idx fwd.1), max_val fwd.1)

/-- Python int() on a nonnegative float sequence length (src line 202,
`int(sequence_length)`). -/
def py_int (q : ℚ) : Nat := q.floor.toNat

/-- src lines 200-204: the per-example decode loop of predict_no_crf.  The
fetched per-example logits are zipped with the fetched sequence lengths;
each example's logits are truncated to its length, Viterbi-decoded on their
own, and the resulting sequences are appended in order (`y_pred +=
[viterbi_seq]`).  A failure inside viterbi_decode propagates as an
exception. -/
def crf_decode_loop (trans : List (List ℚ)) :
    List (List (List ℚ)) → List ℚ → Except PyErr (List (List Nat))
  | [], _ => Except.ok []
  | _, [] => Except.ok []
  | logit :: ls, len :: lens =>
    match viterbi_decode (logit.take (py_int len)) trans with
    | none => Except.error (PyErr.typeError "IndexError inside viterbi_decode")
    | some dec => do
      let rest ← crf_decode_loop trans ls lens
      Except.ok (dec.1 :: rest)

/-- Every attribute name assigned on `self` anywhere in the NerNetwork
class: src lines 45-47 and 84-95 (constructor: _xs_placeholders, _y_ph,
_input_features, train_op, loss, predict, sess) and lines 97-100
(_build_training_placeholders: learning_rate_ph, _dropout_ph, training_ph).
No other method assigns an attribute.  Note the session is stored under
"sess", and neither logits nor transition parameters nor sequence lengths
nor a y_pred tensor nor a _use_crf flag is ever stored. -/
def ner_assigned_attrs : List String :=
  ["learning_rate_ph", "_dropout_ph", "training_ph",
   "_xs_placeholders", "_y_ph", "_input_features",
   "train_op", "loss", "predict", "sess"]

/-- Python attribute lookup on an instance carrying the given attribute
names: a missing name raises AttributeError. -/
def getattr_check (attrs : List String) (name : String) : Except PyErr Unit :=
  if name ∈ attrs then Except.ok () else Except.error (PyErr.attributeError name)

/-- src lines 192-207, predict_no_crf, as the sequence of attribute reads
it performs: the feed-dict comprehension reads self._xs_placeholders, the
branch condition reads self._use_crf, the CRF branch reads self._sess,
self._logits, self._transition_params and self._sequence_lengths, and the
other branch reads self._sess and self._y_pred.  `use_crf_val` is the value
the branch condition would see if the read succeeded. -/
def predict_no_crf (attrs : List String) (use_crf_val : Bool) : Except PyErr Unit := do
  let _ ← getattr_check attrs "_xs_placeholders"
  let _ ← getattr_check attrs "_use_crf"
  if use_crf_val then do
    let _ ← getattr_check attrs "_sess"
    let _ ← getattr_check attrs "_logits"
    let _ ← getattr_check attrs "_transition_params"
    let _ ← getattr_check attrs "_sequence_lengths"
    Except.ok ()
  else do
    let _ ← getattr_check attrs "_sess"
    let _ ← getattr_check attrs "_y_pred"
    Except.ok ()

/-- Python values returned by methods, as far as the claims need them. -/
inductive PyVal
  | noneVal
  | floatVal (q : ℚ)
deriving Repr, DecidableEq

/-- Result of a method call: its return value and the session executions it
performed. -/
structure CallResult where
  ret : PyVal
  session_runs : List String
deriving Repr, DecidableEq

/-- src lines 214-215: the body of train_on_batch is `pass` — it runs
nothing in the session and returns None. -/
def train_on_batch (x : List (List ℚ)) (y : List (List Nat)) : CallResult :=
  ⟨PyVal.noneVal, []⟩

/-- Valid configurations in the sense of the spec: required dimensions
positive, recognized net and cell types, a nonempty list of positive hidden
sizes, nonnegative l2, and the cuDNN path only with a GPU and without l2
regularization. -/
def ValidConfig (cfg : Config) : Prop :=
  0 < cfg.n_tags ∧ 0 < cfg.token_emb_dim ∧
  (cfg.net_type = "rnn" ∨ cfg.net_type = "cnn") ∧
  (cfg.cell_type = "lstm" ∨ cfg.cell_type = "gru") ∧
  cfg.n_hidden_list ≠ [] ∧ (∀ n ∈ cfg.n_hidden_list, 0 < n) ∧
  0 ≤ cfg.l2_reg ∧
  (cfg.use_cudnn_rnn = false ∨ (cfg.gpu_available = true ∧ cfg.l2_reg = 0))

instance (cfg : Config) : Decidable (ValidConfig cfg) := by
  unfold ValidConfig
  infer_instance

/-- The configurations the error-handling section of the spec calls
invalid: unrecognized net_type, unrecognized cell_type, cuDNN without a
GPU, or cuDNN together with positive l2 regularization. -/
def InvalidConfigC5 (cfg : Config) : Prop :=
  (cfg.net_type ≠ "rnn" ∧ cfg.net_type ≠ "cnn") ∨
  (cfg.cell_type ≠ "lstm" ∧ cfg.cell_type ≠ "gru") ∨
  (cfg.use_cudnn_rnn = true ∧ cfg.gpu_available = false) ∨
  (cfg.use_cudnn_rnn = true ∧ 0 < cfg.l2_reg)

instance (cfg : Config) : Decidable (InvalidConfigC5 cfg) := by
  unfold InvalidConfigC5
  infer_instance

/-- The descriptive construction-time configuration errors coded in the
source: the Warning of line 76 and the RuntimeErrors of lines 131 and 140.
The TypeError from the axis-less tf.concat call is not among them. -/
def is_descriptive_config_error : PyErr → Bool
  | PyErr.warning _ => true
  | PyErr.runtimeError _ => true
  | _ => false

/-- A small valid configuration: defaults (plain rnn, lstm, one hidden
layer, no l2) with n_tags 3 and token embeddings of width 100. -/
def cfg_valid_example : Config :=
  { n_tags := 3, token_emb_dim := 100 }

/-- The configuration of the spec's error-handling scenario: cuDNN
requested with l2_reg = 1/2 on a CPU-only device. -/
def cfg_cudnn_l2_cpu : Config :=
  { n_tags := 3, token_emb_dim := 100, use_cudnn_rnn := true,
    l2_reg := 1/2, gpu_available := false }

/-- A configuration activating the character builder (and capitalization,
to witness the ordering of registered inputs). -/
def cfg_char_example : Config :=
  { n_tags := 5, token_emb_dim := 100, char_emb_dim := some 30,
    capitalization_dim := some 4 }

/-- A concrete noise mask keeping channel 0 and dropping channel 1. -/
def ex_noise : Nat → Nat → Nat → Bool := fun _ _ c => c == 0

/-- Concrete batch of per-example logits for the decode loop: two examples,
padded length 3, two tags. -/
def c7_logits : List (List (List ℚ)) :=
  [[[0, 1], [2, 0], [0, 0]], [[1, 0], [0, 3], [2, 2]]]

/-- Concrete transition matrix for the decode loop. -/
def c7_trans : List (List ℚ) := [[0, 1], [1, 0]]

/-- Concrete fetched sequence lengths (floats, as tf.reduce_sum of the
mask produces): true lengths 2 and 3. -/
def c7_lens : List ℚ := [2, 3]

/-- A concrete stand-in for the external cross-entropy primitive, used only
to instantiate witnesses. -/
def c8_xent : List ℚ → List ℚ → ℚ := fun labels lgts => lgts.sum - labels.sum

/-- A configuration with an unrecognized net_type. -/
def cfg_bad_net_type : Config :=
  { n_tags := 3, token_emb_dim := 50, net_type := "transformer" }

/- ===================== Theorems ===================== -/

/-- Elementwise products against an all-zero right operand sum to zero. -/
theorem zip_mul_sum_zero (t m : List ℚ) (h : ∀ q ∈ m, q = 0) :
    (List.zipWith (fun a b => a * b) t m).sum = 0 := by
  induction t generalizing m with
  | nil => simp
  | cons a t ih =>
    cases m with
    | nil => simp
    | cons b m' =>
      have hb : b = 0 := h b (by simp)
      have hm : ∀ q ∈ m', q = 0 := fun q hq => h q (by simp [hq])
      simp [hb, ih m' hm]

/-- Masking a matrix with an all-zero mask makes all entries sum to zero. -/
theorem mask_mul_flatten_sum_zero (t m : List (List ℚ))
    (h : ∀ row ∈ m, ∀ q ∈ row, q = 0) :
    (mask_mul t m).flatten.sum = 0 := by
  induction t generalizing m with
  | nil => simp [mask_mul]
  | cons r t ih =>
    cases m with
    | nil => simp [mask_mul]
    | cons mr m' =>
      have h1 : ∀ q ∈ mr, q = 0 := h mr (by simp)
      have h2 : ∀ row ∈ m', ∀ q ∈ row, q = 0 := fun row hr => h row (by simp [hr])
      simp only [mask_mul, List.zipWith_cons_cons, List.flatten_cons, List.sum_append]
      rw [zip_mul_sum_zero r mr h1, zero_add]
      simpa [mask_mul] using ih m' h2

/-- C1: for every valid configuration, NerNetwork.__init__ fails before
completing.  The feature aggregation on src line 69 calls tf.concat with a
single argument (the feature list, no axis), raising a TypeError; and even
past that point, src lines 84-85 unpack the two-element tuple returned by
_build_train_predict into three targets, which raises a ValueError.
Consequently no NerNetwork instance is ever fully constructed, so no public
operation is reachable on a constructed instance. -/
theorem init_always_fails_before_completion (cfg : Config) (h : ValidConfig cfg) :
    NerNetwork_init cfg =
      Except.error (PyErr.typeError "concat missing 1 required positional argument axis") ∧
    tuple_unpack3 build_train_predict_return =
      Except.error (PyErr.valueError "not enough values to unpack") :=
  ⟨rfl, rfl⟩

/-- Witness for C1 at a concrete valid configuration. -/
theorem init_always_fails_witness :
    ValidConfig cfg_valid_example ∧
    (NerNetwork_init cfg_valid_example =
      Except.error (PyErr.typeError "concat missing 1 required positional argument axis") ∧
     tuple_unpack3 build_train_predict_return =
      Except.error (PyErr.valueError "not enough values to unpack")) :=
  ⟨by decide, init_always_fails_before_completion cfg_valid_example (by decide)⟩

/-- C2: the fused (cuDNN) recurrent builder stops after the first entry of
n_hidden_list — its `return` sits inside the layer loop — so on
n_hidden_list = [128, 64] it yields last-axis width 2*128 = 256 instead of
the 2*64 = 128 the claim requires; the plain variant does process every
layer in order and ends at width 2 * n_hidden_list[-1]. -/
theorem cudnn_rnn_stops_after_first_layer :
    build_cudnn_rnn_width true "lstm" [128, 64] = Except.ok (some 256) ∧
    bi_output_width 64 = 128 ∧ (256 : Nat) ≠ 128 ∧
    build_rnn_width 100 [128, 64] = 128 ∧
    build_rnn_width 100 [8, 4, 2] = 4 :=
  ⟨rfl, rfl, by decide, rfl, rfl⟩

/-- C3: train_on_batch's body is `pass` (src lines 214-215): for every
batch it returns None rather than the scalar loss, and it executes nothing
in the session — it is a no-op, contrary to the claimed contract. -/
theorem train_on_batch_is_noop (x : List (List ℚ)) (y : List (List Nat)) :
    (train_on_batch x y).ret = PyVal.noneVal ∧
    (train_on_batch x y).session_runs = [] :=
  ⟨rfl, rfl⟩

/-- C4: with char_emb_dim set (and capitalization active), the constructed
input lists contain no character entry: _build_char_embeddings creates the
Char_ph placeholder and calls the character sub-network with no inputs but
registers nothing, so the runtime inputs are token ids, mask,
capitalization — not token ids, mask, char ids, capitalization as
claimed. -/
theorem char_builder_registers_nothing :
    (build_input_features cfg_char_example).xs_placeholders =
      [Placeholder.tokenIndices, Placeholder.maskPh, Placeholder.capitalizationPh] ∧
    Placeholder.charIndices ∉ (build_input_features cfg_char_example).xs_placeholders ∧
    (build_input_features cfg_char_example).input_features =
      [Feature.tokenEmb 100, Feature.capitalizationFeat 4] ∧
    (∀ st : BuildState, build_char_embeddings st = st) :=
  ⟨rfl, by decide, rfl, fun _ => rfl⟩

/-- C5 counterexample: requesting cuDNN with l2_reg = 1/2 on a CPU-only
device is an invalid configuration, and construction does fail — but with
the TypeError from the axis-less tf.concat call on src line 69, which is
not one of the descriptive configuration errors coded on src lines 76, 131
and 140. -/
theorem config_errors_preempted_by_concat_cex :
    NerNetwork_init cfg_cudnn_l2_cpu =
      Except.error (PyErr.typeError "concat missing 1 required positional argument axis") ∧
    is_descriptive_config_error
      (PyErr.typeError "concat missing 1 required positional argument axis") = false ∧
    InvalidConfigC5 cfg_cudnn_l2_cpu :=
  ⟨rfl, rfl, by decide⟩

/-- C5 amended: every invalid configuration still makes construction fail
before any training or inference call — but uniformly with the
feature-aggregation TypeError, which precedes all configuration checks, so
the configuration-specific descriptive errors are never the ones raised. -/
theorem invalid_configs_fail_with_concat_error (cfg : Config) (h : InvalidConfigC5 cfg) :
    NerNetwork_init cfg =
      Except.error (PyErr.typeError "concat missing 1 required positional argument axis") ∧
    is_descriptive_config_error
      (PyErr.typeError "concat missing 1 required positional argument axis") = false :=
  ⟨rfl, rfl⟩

/-- Witness for the amended C5 at a concrete invalid configuration
(unrecognized net_type). -/
theorem invalid_configs_fail_witness :
    InvalidConfigC5 cfg_bad_net_type ∧
    (NerNetwork_init cfg_bad_net_type =
      Except.error (PyErr.typeError "concat missing 1 required positional argument axis") ∧
     is_descriptive_config_error
      (PyErr.typeError "concat missing 1 required positional argument axis") = false) :=
  ⟨by decide, invalid_configs_fail_with_concat_error cfg_bad_net_type (by decide)⟩

/-- C6 counterexample: for an embedding tensor of shape [1, 2, 2] the coded
noise shape is [1, 1, 2], not the [1, 2, 1] the claim describes; and with a
mask keeping channel 0 while dropping channel 1, the two channels of the
same example at the same sequence position have different fates, refuting
"at a given position every embedding channel is kept or dropped
together". -/
theorem embeddings_dropout_noise_shape_cex :
    word_dropout_noise_shape [1, 2, 2] = [1, 1, 2] ∧
    word_dropout_noise_shape [1, 2, 2] ≠ [1, 2, 1] ∧
    keep_decision (word_dropout_noise_shape [1, 2, 2]) ex_noise 0 0 0 = true ∧
    keep_decision (word_dropout_noise_shape [1, 2, 2]) ex_noise 0 0 1 = false :=
  ⟨rfl, by decide, rfl, rfl⟩

/-- C6 amended: the dropout applied to the token-embedding tensor uses one
random mask per example and per embedding channel, broadcast across the
sequence-position axis (noise shape [batch, 1, emb_dim]): a given channel
of a given example is kept or dropped at every position together. -/
theorem embeddings_dropout_mask_shared_across_positions (b L d : Nat)
    (noise : Nat → Nat → Nat → Bool) (i j j' c : Nat) :
    word_dropout_noise_shape [b, L, d] = [b, 1, d] ∧
    keep_decision (word_dropout_noise_shape [b, L, d]) noise i j c =
      keep_decision (word_dropout_noise_shape [b, L, d]) noise i j' c :=
  ⟨rfl, rfl⟩

/-- C7: the CRF decode of predict_no_crf is unreachable — the method raises
AttributeError on self._use_crf (never assigned) on any instance carrying
the attributes the class's methods assign — while the decode-loop code
itself, given fetched logits, transition parameters and sequence lengths,
behaves exactly as claimed: each example is truncated to its own length and
Viterbi-decoded independently of the others, the results are concatenated
in order, and each returned sequence has exactly its example's true
length. -/
theorem predict_crf_decode_unreachable_but_correct :
    predict_no_crf ner_assigned_attrs true = Except.error (PyErr.attributeError "_use_crf") ∧
    predict_no_crf ner_assigned_attrs false = Except.error (PyErr.attributeError "_use_crf") ∧
    (crf_decode_loop c7_trans c7_logits c7_lens).map (fun ys => ys.map List.length) =
      Except.ok [2, 3] ∧
    crf_decode_loop c7_trans c7_logits c7_lens =
      Except.ok (List.zipWith (fun logit len =>
        ((viterbi_decode (List.take (py_int len) logit) c7_trans).getD ([], 0)).1)
        c7_logits c7_lens) :=
  ⟨rfl, rfl, rfl, rfl⟩

/-- C8: in independent-softmax mode the base loss is the mean of the
per-position cross-entropy tensor multiplied elementwise by the mask, and
for any batch whose mask is all zeros it evaluates to exactly 0, whatever
the external cross-entropy primitive returns. -/
theorem non_crf_loss_masked_zero (xent : List ℚ → List ℚ → ℚ)
    (crf_nll : List ℚ) (logits : List (List (List ℚ))) (y : List (List Nat))
    (mask : List (List ℚ)) (n_tags : Nat) (l2 : ℚ) (reg : List ℚ)
    (h : ∀ row ∈ mask, ∀ q ∈ row, q = 0) :
    (build_train_predict_losses false crf_nll xent logits y mask n_tags l2 reg).1 =
      reduce_mean_2 (mask_mul (xent_tensor xent n_tags logits y) mask) ∧
    (build_train_predict_losses false crf_nll xent logits y mask n_tags l2 reg).1 = 0 := by
  refine ⟨rfl, ?_⟩
  have hz : (mask_mul (xent_tensor xent n_tags logits y) mask).flatten.sum = 0 :=
    mask_mul_flatten_sum_zero _ _ h
  simp [build_train_predict_losses, base_loss, reduce_mean_2, reduce_mean_1, hz]

/-- Witness for C8 at a concrete batch with an all-zero mask. -/
theorem non_crf_loss_masked_zero_witness :
    (∀ row ∈ ([[0, 0], [0, 0]] : List (List ℚ)), ∀ q ∈ row, q = 0) ∧
    (build_train_predict_losses false [] c8_xent [[[1, 2], [3, 4]], [[5, 6], [7, 8]]]
        [[0, 1], [1, 0]] [[0, 0], [0, 0]] 2 0 []).1 = 0 :=
  ⟨by decide, (non_crf_loss_masked_zero c8_xent [] [[[1, 2], [3, 4]], [[5, 6], [7, 8]]]
      [[0, 1], [1, 0]] [[0, 0], [0, 0]] 2 0 [] (by decide)).2⟩

/-- C9: for every configuration the optimized total loss equals the base
loss plus l2_reg times the mean of the collected regularization terms when
l2_reg > 0, and equals the base loss unchanged when l2_reg = 0. -/
theorem total_loss_l2_regularization (use_crf : Bool) (crf_nll : List ℚ)
    (xent : List ℚ → List ℚ → ℚ) (logits : List (List (List ℚ))) (y : List (List Nat))
    (mask : List (List ℚ)) (n_tags : Nat) (l2 : ℚ) (reg : List ℚ) :
    (0 < l2 →
      (build_train_predict_losses use_crf crf_nll xent logits y mask n_tags l2 reg).2 =
        (build_train_predict_losses use_crf crf_nll xent logits y mask n_tags l2 reg).1 +
          l2 * reduce_mean_1 reg) ∧
    (l2 = 0 →
      (build_train_predict_losses use_crf crf_nll xent logits y mask n_tags l2 reg).2 =
        (build_train_predict_losses use_crf crf_nll xent logits y mask n_tags l2 reg).1) := by
  constructor
  · intro h
    simp [build_train_predict_losses, total_loss, h]
  · intro h
    subst h
    simp [build_train_predict_losses, total_loss]

/-- Witness for C9 at a concrete instantiation with l2_reg = 1/2. -/
theorem total_loss_l2_regularization_witness :
    ((0 : ℚ) < 1/2 →
      (build_train_predict_losses false [] c8_xent [] [] [] 2 (1/2) [4, 6]).2 =
        (build_train_predict_losses false [] c8_xent [] [] [] 2 (1/2) [4, 6]).1 +
          (1/2) * reduce_mean_1 [4, 6]) ∧
    ((1/2 : ℚ) = 0 →
      (build_train_predict_losses false [] c8_xent [] [] [] 2 (1/2) [4, 6]).2 =
        (build_train_predict_losses false [] c8_xent [] [] [] 2 (1/2) [4, 6]).1) :=
  total_loss_l2_regularization false [] c8_xent [] [] [] 2 (1/2) [4, 6]

/-- C10: predict_no_crf reads self._use_crf (and would go on to read
self._sess, self._logits, self._transition_params, self._sequence_lengths
or self._y_pred), yet no method of NerNetwork ever assigns any of these
names — the constructor stores the session as self.sess — so every call to
predict_no_crf on an instance carrying the attributes the class's methods
assign raises AttributeError, regardless of its arguments and of either
branch. -/
theorem predict_no_crf_attribute_error (use_crf_val : Bool) :
    predict_no_crf ner_assigned_attrs use_crf_val =
      Except.error (PyErr.attributeError "_use_crf") ∧
    "_use_crf" ∉ ner_assigned_attrs ∧ "_sess" ∉ ner_assigned_attrs ∧
    "_logits" ∉ ner_assigned_attrs ∧ "_transition_params" ∉ ner_assigned_attrs ∧
    "_sequence_lengths" ∉ ner_assigned_attrs ∧ "_y_pred" ∉ ner_assigned_attrs ∧
    "sess" ∈ ner_assigned_attrs :=
  ⟨rfl, by decide, by decide, by decide, by decide, by decide, by decide, by decide⟩
